import Mathlib

/-!
Shallow embedding of the oak-d-vr-streaming client pipeline
(`src/unnamed/part_000` = main client script, `src/unnamed/part_001` =
controllers script) and proofs about its specification.

JS numbers are embedded as exact rationals (`ℚ`); JS strings as `String`;
nullable references as `Option`; fallible operations as `Except` or
explicit outcome records.
-/

namespace OakDVR

/-! ## Geometric Correction Calculator (`perEyeTexOffset`) -/

/-- Embedding of `perEyeTexOffset(K, width, height, baseline_m, convergence_m, eye)`
from the main client script.  `K` is the 3×3 intrinsic matrix; the function
reads `K[0][0]` (fx), `K[0][2]` (cx) and `K[1][2]` (cy).  The `eye` argument
is the JS string `"left"` or `"right"`; the source computes
`eye_sign = (eye === "left") ? 1 : -1`.  Returns the pair `(du, dv)`. -/
def perEyeTexOffset (K : Fin 3 → Fin 3 → ℚ) (width height baseline_m convergence_m : ℚ)
    (eye : String) : ℚ × ℚ :=
  let fx := K 0 0
  let cx := K 0 2
  let cy := K 1 2
  let dx_pp := (cx - width / 2) / width
  let dy_pp := (cy - height / 2) / height
  let conv_tc := (fx * baseline_m) / (2 * convergence_m * width)
  let eye_sign : ℚ := if eye = "left" then 1 else -1
  (-dx_pp + eye_sign * conv_tc, dy_pp)

/-! ## Session Negotiator: data channel configuration -/

/-- The options dictionary passed to `createDataChannel`. -/
structure DataChannelInit where
  ordered : Bool
  maxRetransmits : ℕ
deriving DecidableEq, Repr

/-- The literal configuration used at the `createDataChannel("poseData", ...)`
call in `startWebRTC`: `{ ordered: true, maxRetransmits: 0 }`. -/
def poseDataChannelInit : DataChannelInit :=
  { ordered := true, maxRetransmits := 0 }

/-! ## Calibration Loader (`loadCalibration`) -/

/-- A JS value as it can appear in a parsed calibration payload field; a
field absent from the payload reads as `.undefined`. -/
inductive JSPrim
  | undefined
  | null
  | bool (b : Bool)
  | num (q : ℚ)
  | str (s : String)
  | matrix (m : List (List ℚ))
  | objOther
deriving DecidableEq, Repr

/-- JS truthiness of such a value. -/
def JSPrim.truthy : JSPrim → Bool
  | .undefined => false
  | .null => false
  | .bool b => b
  | .num q => q != 0
  | .str s => s != ""
  | .matrix _ => true
  | .objOther => true

/-- The check `typeof v === "number"`. -/
def JSPrim.isNumber : JSPrim → Bool
  | .num _ => true
  | _ => false

/-- Whether the value is an object (a JSON object or array). -/
def JSPrim.isObject : JSPrim → Bool
  | .matrix _ => true
  | .objOther => true
  | _ => false

/-- The fields of a calibration JSON body that `loadCalibration` inspects. -/
structure CalibBody where
  k_left : JSPrim
  k_right : JSPrim
  baseline_m : JSPrim
deriving DecidableEq, Repr

/-- The parsed response of the `/calibration` fetch: either a JSON object
with the three inspected fields, or a non-object JSON value. -/
inductive CalibJSON
  | nonObject (v : JSPrim)
  | obj (b : CalibBody)
deriving DecidableEq, Repr

/-- JS truthiness of the whole parsed payload (`!calib`). -/
def CalibJSON.truthyVal : CalibJSON → Bool
  | .nonObject v => v.truthy
  | .obj _ => true

/-- Property access `calib.k_left`; a primitive value has no fields. -/
def CalibJSON.k_left : CalibJSON → JSPrim
  | .nonObject _ => .undefined
  | .obj b => b.k_left

/-- Property access `calib.k_right`. -/
def CalibJSON.k_right : CalibJSON → JSPrim
  | .nonObject _ => .undefined
  | .obj b => b.k_right

/-- Property access `calib.baseline_m`. -/
def CalibJSON.baseline_m : CalibJSON → JSPrim
  | .nonObject _ => .undefined
  | .obj b => b.baseline_m

/-- Embedding of the validation in `loadCalibration`: the fetch response has
status flag `ok` and parsed body `json`.  The function completes without
throwing exactly when `res.ok` holds and the required-fields check
`!calib || !calib.k_left || !calib.k_right || typeof calib.baseline_m !== "number"`
does not fire. -/
def loadCalibrationOk (ok : Bool) (json : CalibJSON) : Bool :=
  ok && (json.truthyVal && json.k_left.truthy && json.k_right.truthy
          && json.baseline_m.isNumber)

/-- Embedding of the startup path in `startXR` that leads to the first call
of `perEyeTexOffset`: WebXR must be supported, `startWebRTC` and
`loadCalibration` must not throw (the catch returns before any rendering),
and `initGLResources` must not throw; `loadCalibration` throws exactly when
`loadCalibrationOk` is `false`. -/
def startXRReachesPerEyeTexOffset (xrSupported webrtcOk : Bool)
    (ok : Bool) (json : CalibJSON) (glOk : Bool) : Bool :=
  xrSupported && (webrtcOk && loadCalibrationOk ok json) && glOk

/-- A calibration payload whose `k_left` is the number 1: truthy but not an
object. -/
def truthyNonObjectPayload : CalibJSON :=
  .obj { k_left := .num 1
       , k_right := .matrix [[800, 0, 640], [0, 800, 360], [0, 0, 1]]
       , baseline_m := .num (3 / 40) }

/-! ## Session Negotiator: eye assignment on track arrival (`pc.ontrack`) -/

/-- A transceiver as visible in the `ontrack` handler: `mid` is `none` when
the JS value is `null`. -/
structure Transceiver where
  mid : Option String
deriving DecidableEq, Repr

/-- A track-arrival event: the track's `kind` and the (possibly absent)
transceiver. -/
structure TrackEvent where
  kind : String
  transceiver : Option Transceiver
deriving DecidableEq, Repr

/-- The two eye slots (`leftVideo` / `rightVideo`). -/
inductive EyeSlot | left | right
deriving DecidableEq, Repr

/-- The guard `event.transceiver && event.transceiver.mid !== null`; returns
the mid when the guard holds. -/
def TrackEvent.midBranch (e : TrackEvent) : Option String :=
  match e.transceiver with
  | some t => t.mid
  | none => none

/-- One invocation of the `pc.ontrack` handler with the current `videoCount`:
returns the eye slot the track was bound to (none for non-video tracks) and
the updated `videoCount`. -/
def ontrackStep (videoCount : ℕ) (e : TrackEvent) : Option EyeSlot × ℕ :=
  if e.kind ≠ "video" then (none, videoCount)
  else
    let target : EyeSlot :=
      match e.midBranch with
      | some m => if m = "0" then .left else .right
      | none => if videoCount = 0 then .left else .right
    (some target, videoCount + 1)

/-- Processing a whole arrival sequence starting from a given `videoCount`:
the per-event eye bindings, in arrival order. -/
def assignTracks : ℕ → List TrackEvent → List (Option EyeSlot)
  | _, [] => []
  | n, e :: es =>
    let r := ontrackStep n e
    r.1 :: assignTracks r.2 es

/-- The number of video tracks among a list of events. -/
def countVideo (es : List TrackEvent) : ℕ :=
  (es.filter (fun e => e.kind = "video")).length

/-! ## Stereo Compositor: texture upload from video (`updateTextureFromVideo`) -/

/-- The observable state of a video element, plus whether the GPU upload for
it would throw this frame. -/
structure VideoState where
  readyState : ℕ
  videoWidth : ℕ
  videoHeight : ℕ
  uploadThrows : Bool
deriving DecidableEq, Repr

/-- The guard in `updateTextureFromVideo`:
`video.readyState < 2 || video.videoWidth === 0 || video.videoHeight === 0`. -/
def VideoState.notReady (v : VideoState) : Bool :=
  decide (v.readyState < 2) || v.videoWidth == 0 || v.videoHeight == 0

/-- The two session-lifetime once-only log flags
(`hasLoggedLeftVideo`, `hasLoggedRightVideo`). -/
structure LogFlags where
  hasLoggedLeftVideo : Bool
  hasLoggedRightVideo : Bool
deriving DecidableEq, Repr

/-- The flags at session start. -/
def initialLogFlags : LogFlags := ⟨false, false⟩

/-- The body of the `try` in `updateTextureFromVideo`: bind the texture and
run `texImage2D`, which may throw. -/
def texUploadAttempt (v : VideoState) : Except String Unit :=
  if v.uploadThrows then .error "texImage2D failed" else .ok ()

/-- Outcome of one `updateTextureFromVideo` call. -/
structure TexUpdateResult where
  uploaded : Bool
  loggedNow : Bool
  threw : Bool
  flags : LogFlags
deriving DecidableEq, Repr

/-- Embedding of `updateTextureFromVideo(texture, video)`; `isLeftVideo`
records which of the two video elements was passed.  A not-ready source
skips the upload and logs a status line only if its flag is still unset; an
upload exception is caught inside the function and logged to the console. -/
def updateTextureFromVideo (flags : LogFlags) (isLeftVideo : Bool) (v : VideoState) :
    TexUpdateResult :=
  if v.notReady then
    if isLeftVideo then
      { uploaded := false, loggedNow := !flags.hasLoggedLeftVideo, threw := false,
        flags := { flags with hasLoggedLeftVideo := true } }
    else
      { uploaded := false, loggedNow := !flags.hasLoggedRightVideo, threw := false,
        flags := { flags with hasLoggedRightVideo := true } }
  else
    match texUploadAttempt v with
    | .ok _ => { uploaded := true, loggedNow := false, threw := false, flags := flags }
    | .error _ => { uploaded := false, loggedNow := false, threw := false, flags := flags }

/-- What one per-eye pass of the frame loop did for one view. -/
structure ViewRender where
  eye : String
  uploaded : Bool
  loggedNow : Bool
  drawn : Bool
  threw : Bool
deriving DecidableEq, Repr

/-- The per-eye passes of `onXRFrame` (the loop over `pose.views`): each
view updates its texture from its video source, binds it, sets the offset
uniform, and issues `drawArrays` unconditionally. -/
def renderViews (flags : LogFlags) (lv rv : VideoState) :
    List String → List ViewRender × LogFlags
  | [] => ([], flags)
  | e :: es =>
    let isLeft := e == "left"
    let r := updateTextureFromVideo flags isLeft (if isLeft then lv else rv)
    let rest := renderViews r.flags lv rv es
    ({ eye := e, uploaded := r.uploaded, loggedNow := r.loggedNow,
       drawn := true, threw := r.threw } :: rest.1, rest.2)

/-- The per-frame video and view inputs for a session-level run. -/
structure FrameVideoInput where
  lv : VideoState
  rv : VideoState
  views : List String
deriving DecidableEq, Repr

/-- Running the per-eye passes over a whole session of frames, threading the
once-only log flags through. -/
def runSession (flags : LogFlags) : List FrameVideoInput → List ViewRender × LogFlags
  | [] => ([], flags)
  | f :: fs =>
    let r := renderViews flags f.lv f.rv f.views
    let rest := runSession r.2 fs
    (r.1 ++ rest.1, rest.2)

/-- Whether the session flag for a side (`true` = left video) is set. -/
def sideLogged (side : Bool) (f : LogFlags) : Bool :=
  if side then f.hasLoggedLeftVideo else f.hasLoggedRightVideo

/-- 1 while the side's once-only log line is still unspent, 0 after. -/
def sideDebt (side : Bool) (f : LogFlags) : ℕ :=
  if sideLogged side f then 0 else 1

/-- Number of "not ready yet" status lines emitted for a side's video in a
list of view renders. -/
def countSideLogs (side : Bool) (rs : List ViewRender) : ℕ :=
  (rs.filter (fun r => ((r.eye == "left") == side) && r.loggedNow)).length

/-! ## Stereo Compositor: the frame loop (`onXRFrame`) -/

/-- The environment of one `onXRFrame` invocation, after GPU resource setup
has succeeded: which sub-operations are available and which of the fallible
ones would throw. -/
structure FrameEnv where
  poseAvailable : Bool
  channelOpen : Bool
  samplerPresent : Bool
  poseSendThrows : Bool
  controllerSendThrows : Bool
  glThrows : Bool
  views : List String
  lv : VideoState
  rv : VideoState
deriving DecidableEq, Repr

/-- Observable outcome of one `onXRFrame` invocation. -/
structure FrameOutcome where
  sentPose : Bool
  sentController : Bool
  viewsRendered : List ViewRender
  nextRequested : Bool
  caughtLogged : Bool
  escaped : Bool
deriving DecidableEq, Repr

/-- Whether this invocation raises an exception inside the `try` body:
either the guarded pose send throws, or (once the sampler check has been
passed) a GL call in the render section throws. -/
def FrameEnv.bodyThrows (env : FrameEnv) : Bool :=
  env.poseAvailable &&
    ((env.channelOpen && env.poseSendThrows)
      || (!(env.channelOpen && env.poseSendThrows)
            && env.samplerPresent && env.glThrows))

/-- Embedding of `onXRFrame(time, frame)`.  The whole body is inside one
`try`; the final `session.requestAnimationFrame(onXRFrame)` is the last
statement of the `try`, and the `catch` only calls `logError`.  The two
early-return branches (null pose, missing sampler) request the next frame
before returning.  `sendControllerData` catches its own send failure, so a
controller-send exception never reaches this frame's `catch`. -/
def onXRFrame (flags : LogFlags) (env : FrameEnv) : FrameOutcome × LogFlags :=
  if !env.poseAvailable then
    ({ sentPose := false, sentController := false, viewsRendered := [],
       nextRequested := true, caughtLogged := false, escaped := false }, flags)
  else if env.channelOpen && env.poseSendThrows then
    ({ sentPose := false, sentController := false, viewsRendered := [],
       nextRequested := false, caughtLogged := true, escaped := false }, flags)
  else
    let sentPose := env.channelOpen
    let sentController := env.channelOpen && !env.controllerSendThrows
    if !env.samplerPresent then
      ({ sentPose := sentPose, sentController := sentController, viewsRendered := [],
         nextRequested := true, caughtLogged := false, escaped := false }, flags)
    else if env.glThrows then
      ({ sentPose := sentPose, sentController := sentController, viewsRendered := [],
         nextRequested := false, caughtLogged := true, escaped := false }, flags)
    else
      let r := renderViews flags env.lv env.rv env.views
      ({ sentPose := sentPose, sentController := sentController, viewsRendered := r.1,
         nextRequested := true, caughtLogged := false, escaped := false }, r.2)

/-! ## Telemetry Uplink: channel state and send guards -/

/-- The `RTCDataChannel.readyState` values. -/
inductive ChannelReadyState
  | connecting
  | openState
  | closing
  | closedState
deriving DecidableEq, Repr

/-- The uplink's mutable state: the `dataChannel` variable (null after the
`onclose` handler runs) and the messages handed to the transport. -/
structure UplinkState where
  dataChannel : Option ChannelReadyState
  wire : List String
deriving DecidableEq, Repr

/-- The `onclose` handler: `dataChannel = null`. -/
def onChannelClose (s : UplinkState) : UplinkState :=
  { s with dataChannel := none }

/-- The guard `dataChannel && dataChannel.readyState === "open"`. -/
def UplinkState.channelOpen (s : UplinkState) : Bool :=
  match s.dataChannel with
  | some .openState => true
  | _ => false

/-- Result of a send attempt: the new uplink state and whether an exception
escaped the function. -/
structure SendResult where
  state : UplinkState
  raised : Bool
deriving DecidableEq, Repr

/-- The pose-send block of `onXRFrame`: sends only under the open-channel
guard; a throwing `send` escapes to the frame's outer `catch`. -/
def sendPoseTelemetry (s : UplinkState) (msg : String) (sendThrows : Bool) : SendResult :=
  if s.channelOpen then
    if sendThrows then { state := s, raised := true }
    else { state := { s with wire := s.wire ++ [msg] }, raised := false }
  else { state := s, raised := false }

/-- The guard-and-send skeleton of `sendControllerData`: returns immediately
unless the channel is open; the `send` call sits in its own `try`/`catch`
that logs to the overlay, so no exception escapes. -/
def sendControllerData (s : UplinkState) (msg : String) (sendThrows : Bool) : SendResult :=
  if !s.channelOpen then { state := s, raised := false }
  else if sendThrows then { state := s, raised := false }
  else { state := { s with wire := s.wire ++ [msg] }, raised := false }

/-! ## Telemetry Uplink: the controller message (`sendControllerData` body) -/

/-- One entry of a gamepad's `buttons` array. -/
structure GamepadButton where
  pressed : Bool
deriving DecidableEq, Repr

/-- A gamepad's observable state. -/
structure Gamepad where
  axes : List ℚ
  buttons : List GamepadButton
deriving DecidableEq, Repr

/-- An XR input source: its (possibly absent) gamepad and its handedness
string. -/
structure InputSource where
  gamepad : Option Gamepad
  handedness : String
deriving DecidableEq, Repr

/-- A semantic `{x, y}` stick. -/
structure Joystick where
  x : ℚ
  y : ℚ
deriving DecidableEq, Repr

/-- The `controllerMessage` object: `buttons` is a JS object, modelled as an
association list from key to assigned value. -/
structure ControllerMessage where
  type : String
  timestamp : ℕ
  leftJoystick : Joystick
  rightJoystick : Joystick
  buttons : List (String × Bool)
deriving DecidableEq, Repr

/-- The check `btns[i] && btns[i].pressed`: false when the index is out of range. -/
def Gamepad.btnPressed (g : Gamepad) (i : ℕ) : Bool :=
  match g.buttons.get? i with
  | some b => b.pressed
  | none => false

/-- The stick read from a gamepad with at least 4 axes:
`{ x: gamepad.axes[2], y: -gamepad.axes[3] }` (Y inverted so forward is
positive). -/
def stickOf (g : Gamepad) : Joystick :=
  { x := g.axes.getD 2 0, y := -(g.axes.getD 3 0) }

/-- JS object assignment `buttons[k] = v`: overwrite the key if present,
otherwise add it. -/
def setBtn (bs : List (String × Bool)) (k : String) (v : Bool) : List (String × Bool) :=
  if bs.any (fun p => p.1 == k) then
    bs.map (fun p => if p.1 == k then (p.1, v) else p)
  else bs ++ [(k, v)]

/-- One `if (cond) controllerMessage.buttons[k] = true;` statement. -/
def applyBtn (cond : Bool) (k : String) (m : ControllerMessage) : ControllerMessage :=
  if cond then { m with buttons := setBtn m.buttons k true } else m

/-- The joystick part of one loop iteration: with at least 4 axes, write the
stick into the slot matching the hand. -/
def applyStick (hand : String) (g : Gamepad) (m : ControllerMessage) : ControllerMessage :=
  if 4 ≤ g.axes.length then
    let m1 := if hand = "left" then { m with leftJoystick := stickOf g } else m
    if hand = "right" then { m1 with rightJoystick := stickOf g } else m1
  else m

/-- One iteration of the `for (const inputSource of inputSources)` loop in
`sendControllerData`: skip sources without a gamepad, update the stick for
the hand, then the named buttons, then the two grip aliases. -/
def processInputSource (m : ControllerMessage) (src : InputSource) : ControllerMessage :=
  match src.gamepad with
  | none => m
  | some g =>
    let hand := src.handedness
    let m := applyStick hand g m
    let m := applyBtn (g.btnPressed 0) (hand ++ "_trigger") m
    let m := applyBtn (g.btnPressed 1) (hand ++ "_grip") m
    let m := applyBtn (g.btnPressed 4) "plow_up" m
    let m := applyBtn (g.btnPressed 5) "plow_down" m
    let m := applyBtn ((hand == "right") && g.btnPressed 1) "lights" m
    applyBtn ((hand == "left") && g.btnPressed 1) "horn" m

/-- The message assembled by `sendControllerData` before serialization. -/
def controllerMessage (timestamp : ℕ) (inputSources : List InputSource) : ControllerMessage :=
  inputSources.foldl processInputSource
    { type := "controller", timestamp := timestamp,
      leftJoystick := ⟨0, 0⟩, rightJoystick := ⟨0, 0⟩, buttons := [] }

/-- Whether a source carries a usable stick for a hand: its handedness
matches and its gamepad exposes at least 4 axes. -/
def hasStick (hand : String) (s : InputSource) : Bool :=
  (s.handedness == hand) &&
    (match s.gamepad with
     | some g => decide (4 ≤ g.axes.length)
     | none => false)

/-- The ways one source can set the button key `k`. -/
def contributesBtn (s : InputSource) (k : String) : Prop :=
  ∃ g, s.gamepad = some g ∧
    ((g.btnPressed 0 = true ∧ k = s.handedness ++ "_trigger")
      ∨ (g.btnPressed 1 = true ∧ k = s.handedness ++ "_grip")
      ∨ (g.btnPressed 4 = true ∧ k = "plow_up")
      ∨ (g.btnPressed 5 = true ∧ k = "plow_down")
      ∨ (s.handedness = "right" ∧ g.btnPressed 1 = true ∧ k = "lights")
      ∨ (s.handedness = "left" ∧ g.btnPressed 1 = true ∧ k = "horn"))

end OakDVR

namespace OakDVR

/-- C1: `perEyeTexOffset` returns exactly the pair given by the spec's
formulas: `dx_pp = (cx - width/2)/width`, `dy_pp = (cy - height/2)/height`,
`conv = fx*baseline/(2*convergence*width)`, `du = -dx_pp + sign(eye)*conv`
with `sign(left) = 1` and `sign(right) = -1`, and `dv = dy_pp`, for every
intrinsic matrix and positive width, height, baseline and convergence. -/
theorem perEyeTexOffset_formula (K : Fin 3 → Fin 3 → ℚ)
    (width height baseline_m convergence_m : ℚ)
    (hw : 0 < width) (hh : 0 < height) (hb : 0 < baseline_m) (hc : 0 < convergence_m) :
    perEyeTexOffset K width height baseline_m convergence_m "left" =
      (-((K 0 2 - width / 2) / width)
        + 1 * ((K 0 0 * baseline_m) / (2 * convergence_m * width)),
       (K 1 2 - height / 2) / height)
    ∧ perEyeTexOffset K width height baseline_m convergence_m "right" =
      (-((K 0 2 - width / 2) / width)
        + (-1) * ((K 0 0 * baseline_m) / (2 * convergence_m * width)),
       (K 1 2 - height / 2) / height) := by
  constructor <;> simp [perEyeTexOffset]

/-- Witness for C1 at a concrete input. -/
theorem perEyeTexOffset_formula_witness :
    perEyeTexOffset (fun _ _ => 1) 1 1 1 1 "left" =
      (-(((1 : ℚ) - 1 / 2) / 1) + 1 * (((1 : ℚ) * 1) / (2 * 1 * 1)),
        ((1 : ℚ) - 1 / 2) / 1)
    ∧ perEyeTexOffset (fun _ _ => 1) 1 1 1 1 "right" =
      (-(((1 : ℚ) - 1 / 2) / 1) + (-1) * (((1 : ℚ) * 1) / (2 * 1 * 1)),
        ((1 : ℚ) - 1 / 2) / 1) :=
  perEyeTexOffset_formula (fun _ _ => 1) 1 1 1 1
    (by norm_num) (by norm_num) (by norm_num) (by norm_num)

/-- C5: for every intrinsic matrix and positive parameters, the horizontal
offsets of the two eyes sum to minus twice the principal-point term:
`du_left + du_right = -2 * dx_pp`. -/
theorem perEyeTexOffset_mirror (K : Fin 3 → Fin 3 → ℚ)
    (width height baseline_m convergence_m : ℚ)
    (hw : 0 < width) (hh : 0 < height) (hb : 0 < baseline_m) (hc : 0 < convergence_m) :
    (perEyeTexOffset K width height baseline_m convergence_m "left").1
      + (perEyeTexOffset K width height baseline_m convergence_m "right").1
      = -2 * ((K 0 2 - width / 2) / width) := by
  simp [perEyeTexOffset]
  ring

/-- Witness for C5 at a concrete input. -/
theorem perEyeTexOffset_mirror_witness :
    (perEyeTexOffset (fun _ _ => 1) 1 1 1 1 "left").1
      + (perEyeTexOffset (fun _ _ => 1) 1 1 1 1 "right").1
      = -2 * (((1 : ℚ) - 1 / 2) / 1) :=
  perEyeTexOffset_mirror (fun _ _ => 1) 1 1 1 1
    (by norm_num) (by norm_num) (by norm_num) (by norm_num)

/-- C2 counterexample: the channel created in `startWebRTC` has
`ordered = true`, not `ordered = false` as claimed. -/
theorem poseDataChannel_not_unordered :
    ¬ (poseDataChannelInit.ordered = false ∧ poseDataChannelInit.maxRetransmits = 0) := by
  decide

/-- C2 (amended): the telemetry data channel created during session
negotiation is configured with `ordered = true` and `maxRetransmits = 0`. -/
theorem poseDataChannel_config :
    poseDataChannelInit.ordered = true ∧ poseDataChannelInit.maxRetransmits = 0 := by
  decide

/-- C4 counterexample: a payload whose `k_left` is the (truthy, non-object)
number 1 passes validation and, when the rest of startup succeeds, reaches
`perEyeTexOffset` — the claim says a non-object `k_left` must fail
validation and never reach it. -/
theorem loadCalibration_accepts_truthy_nonobject :
    loadCalibrationOk true truthyNonObjectPayload = true
    ∧ (truthyNonObjectPayload.k_left).isObject = false
    ∧ startXRReachesPerEyeTexOffset true true true truthyNonObjectPayload true = true := by
  decide

/-- C4 (amended): `loadCalibration` accepts exactly when the response status
is OK, the payload is truthy, `k_left` and `k_right` are truthy (not
necessarily objects), and `baseline_m` has JS type number; any payload
failing this — in particular one missing `baseline_m`, with non-numeric
`baseline_m`, or with an absent intrinsic matrix — fails validation and
never reaches `perEyeTexOffset`. -/
theorem loadCalibration_validation (ok : Bool) (json : CalibJSON) :
    (loadCalibrationOk ok json = true ↔
      ok = true ∧ json.truthyVal = true ∧ json.k_left.truthy = true
        ∧ json.k_right.truthy = true ∧ json.baseline_m.isNumber = true)
    ∧ (loadCalibrationOk ok json = false →
        ∀ xrSupported webrtcOk glOk,
          startXRReachesPerEyeTexOffset xrSupported webrtcOk ok json glOk = false) := by
  constructor
  · simp [loadCalibrationOk, Bool.and_eq_true, and_assoc]
  · intro h xrSupported webrtcOk glOk
    simp [startXRReachesPerEyeTexOffset, h]

/-- Witness for C4's amended theorem at a concrete input: a non-OK response
never reaches `perEyeTexOffset`. -/
theorem loadCalibration_validation_witness :
    startXRReachesPerEyeTexOffset true true false (.nonObject .null) true = false :=
  (loadCalibration_validation false (.nonObject .null)).2 (by decide) true true true

/-- The `videoCount` after one `ontrack` invocation: it grows by one exactly on
video tracks. -/
theorem ontrackStep_snd (n : ℕ) (e : TrackEvent) :
    (ontrackStep n e).2 = n + (if e.kind = "video" then 1 else 0) := by
  unfold ontrackStep
  by_cases h : e.kind = "video" <;> simp [h]

/-- Unfolding `countVideo` on a cons. -/
theorem countVideo_cons (a : TrackEvent) (es : List TrackEvent) :
    countVideo (a :: es) = (if a.kind = "video" then 1 else 0) + countVideo es := by
  unfold countVideo
  by_cases h : a.kind = "video" <;> simp [List.filter, h, Nat.add_comm]

/-- The binding of the event at index `i` is decided by `ontrackStep` at the
`videoCount` accumulated over the preceding events. -/
theorem assignTracks_get? (es : List TrackEvent) (n i : ℕ) (e : TrackEvent)
    (he : es.get? i = some e) :
    (assignTracks n es).get? i = some (ontrackStep (n + countVideo (es.take i)) e).1 := by
  induction es generalizing n i with
  | nil => simp at he
  | cons a es ih =>
    cases i with
    | zero =>
      simp at he
      subst he
      simp [assignTracks, countVideo]
    | succ j =>
      simp only [List.get?] at he
      have := ih (ontrackStep n a).2 j he
      simp only [assignTracks, List.get?]
      rw [this, ontrackStep_snd, List.take_succ_cons, countVideo_cons]
      ring_nf

/-- C6: for every arrival sequence and every video track in it, if the
transceiver exposes a non-null mid then mid "0" binds the track to the left
eye slot and any other mid to the right; if the mid is null (or the
transceiver is absent), the track binds to the left eye exactly when no
video track arrived before it, and to the right eye otherwise — the
assignment is a function of the arrival sequence, hence deterministic. -/
theorem ontrack_eye_assignment (es : List TrackEvent) (i : ℕ) (e : TrackEvent)
    (he : es.get? i = some e) (hv : e.kind = "video") :
    (∀ m, e.midBranch = some m →
      (assignTracks 0 es).get? i
        = some (some (if m = "0" then .left else .right)))
    ∧ (e.midBranch = none →
      (assignTracks 0 es).get? i
        = some (some (if countVideo (es.take i) = 0 then .left else .right))) := by
  have hmain := assignTracks_get? es 0 i e he
  rw [Nat.zero_add] at hmain
  constructor
  · intro m hm
    rw [hmain]
    simp [ontrackStep, hv, hm]
  · intro hm
    rw [hmain]
    simp [ontrackStep, hv, hm]

/-- Witness for C6 at a concrete arrival order: the second track, arriving
with a null mid after one video track, binds to the right eye. -/
theorem ontrack_eye_assignment_witness :
    (assignTracks 0 [⟨"video", some ⟨some "1"⟩⟩, ⟨"video", none⟩]).get? 1
      = some (some (if countVideo
          (([⟨"video", some ⟨some "1"⟩⟩, ⟨"video", none⟩] :
            List TrackEvent).take 1) = 0 then .left else .right)) :=
  (ontrack_eye_assignment [⟨"video", some ⟨some "1"⟩⟩, ⟨"video", none⟩] 1
    ⟨"video", none⟩ rfl rfl).2 rfl

/-- C3 counterexample: with the pose available and an open channel whose
`send` throws, the exception is caught and logged, but the next frame is
not requested — refuting the claim that the loop continues on every
reachable state. -/
theorem onXRFrame_throw_stops_loop :
    (onXRFrame initialLogFlags
      { poseAvailable := true, channelOpen := true, samplerPresent := true,
        poseSendThrows := true, controllerSendThrows := false, glThrows := false,
        views := ["left", "right"],
        lv := ⟨4, 1280, 720, false⟩, rv := ⟨4, 1280, 720, false⟩ }).1.caughtLogged = true
    ∧ (onXRFrame initialLogFlags
      { poseAvailable := true, channelOpen := true, samplerPresent := true,
        poseSendThrows := true, controllerSendThrows := false, glThrows := false,
        views := ["left", "right"],
        lv := ⟨4, 1280, 720, false⟩, rv := ⟨4, 1280, 720, false⟩ }).1.nextRequested = false :=
  ⟨rfl, rfl⟩

/-- C3 (amended): every exception raised during the body of a frame
invocation is caught and logged by `onXRFrame` and never escapes, but the
frame loop stops: when the body throws, the next frame is not requested
(the rescheduling call is the last statement of the `try` and the `catch`
does not reschedule); when the body does not throw, the next frame is
requested. -/
theorem onXRFrame_exception_handling (flags : LogFlags) (env : FrameEnv) :
    (onXRFrame flags env).1.escaped = false
    ∧ (env.bodyThrows = true →
        (onXRFrame flags env).1.caughtLogged = true
          ∧ (onXRFrame flags env).1.nextRequested = false)
    ∧ (env.bodyThrows = false → (onXRFrame flags env).1.nextRequested = true) := by
  obtain ⟨pa, co, sp, pst, cst, gt, vs, lv, rv⟩ := env
  cases pa <;> cases co <;> cases sp <;> cases pst <;> cases gt <;>
    simp [onXRFrame, FrameEnv.bodyThrows]

/-- Witness for C3's amended theorem at a concrete input: a GL throw in the
render section is caught and the loop is not rescheduled. -/
theorem onXRFrame_exception_handling_witness :
    (onXRFrame initialLogFlags
      { poseAvailable := true, channelOpen := false, samplerPresent := true,
        poseSendThrows := false, controllerSendThrows := false, glThrows := true,
        views := [], lv := ⟨0, 0, 0, false⟩, rv := ⟨0, 0, 0, false⟩ }).1.caughtLogged = true
    ∧ (onXRFrame initialLogFlags
      { poseAvailable := true, channelOpen := false, samplerPresent := true,
        poseSendThrows := false, controllerSendThrows := false, glThrows := true,
        views := [], lv := ⟨0, 0, 0, false⟩, rv := ⟨0, 0, 0, false⟩ }).1.nextRequested = false :=
  (onXRFrame_exception_handling initialLogFlags
    { poseAvailable := true, channelOpen := false, samplerPresent := true,
      poseSendThrows := false, controllerSendThrows := false, glThrows := true,
      views := [], lv := ⟨0, 0, 0, false⟩, rv := ⟨0, 0, 0, false⟩ }).2.1 (by decide)

/-- C9: on a frame where viewer-pose retrieval returns null, no telemetry is
sent — neither pose nor controller, even with the channel open — nothing is
drawn, the log flags are untouched, and the frame only reschedules itself. -/
theorem onXRFrame_null_pose (flags : LogFlags) (env : FrameEnv)
    (h : env.poseAvailable = false) :
    (onXRFrame flags env).1.sentPose = false
    ∧ (onXRFrame flags env).1.sentController = false
    ∧ (onXRFrame flags env).1.viewsRendered = []
    ∧ (onXRFrame flags env).1.nextRequested = true
    ∧ (onXRFrame flags env).2 = flags := by
  simp [onXRFrame, h]

/-- Witness for C9 at a concrete input: channel open, pose null. -/
theorem onXRFrame_null_pose_witness :
    (onXRFrame initialLogFlags
      { poseAvailable := false, channelOpen := true, samplerPresent := true,
        poseSendThrows := false, controllerSendThrows := false, glThrows := false,
        views := ["left", "right"],
        lv := ⟨4, 1280, 720, false⟩, rv := ⟨4, 1280, 720, false⟩ }).1.sentPose = false
    ∧ (onXRFrame initialLogFlags
      { poseAvailable := false, channelOpen := true, samplerPresent := true,
        poseSendThrows := false, controllerSendThrows := false, glThrows := false,
        views := ["left", "right"],
        lv := ⟨4, 1280, 720, false⟩, rv := ⟨4, 1280, 720, false⟩ }).1.sentController = false
    ∧ (onXRFrame initialLogFlags
      { poseAvailable := false, channelOpen := true, samplerPresent := true,
        poseSendThrows := false, controllerSendThrows := false, glThrows := false,
        views := ["left", "right"],
        lv := ⟨4, 1280, 720, false⟩, rv := ⟨4, 1280, 720, false⟩ }).1.viewsRendered = []
    ∧ (onXRFrame initialLogFlags
      { poseAvailable := false, channelOpen := true, samplerPresent := true,
        poseSendThrows := false, controllerSendThrows := false, glThrows := false,
        views := ["left", "right"],
        lv := ⟨4, 1280, 720, false⟩, rv := ⟨4, 1280, 720, false⟩ }).1.nextRequested = true
    ∧ (onXRFrame initialLogFlags
      { poseAvailable := false, channelOpen := true, samplerPresent := true,
        poseSendThrows := false, controllerSendThrows := false, glThrows := false,
        views := ["left", "right"],
        lv := ⟨4, 1280, 720, false⟩, rv := ⟨4, 1280, 720, false⟩ }).2 = initialLogFlags :=
  onXRFrame_null_pose initialLogFlags
    { poseAvailable := false, channelOpen := true, samplerPresent := true,
      poseSendThrows := false, controllerSendThrows := false, glThrows := false,
      views := ["left", "right"],
      lv := ⟨4, 1280, 720, false⟩, rv := ⟨4, 1280, 720, false⟩ } rfl

/-- C8: after the telemetry channel closes mid-session (the `onclose`
handler nulls `dataChannel`), every subsequent send attempt — pose or
controller — is a no-op: the uplink state is unchanged (nothing reaches the
wire, nothing is queued) and no exception is raised, whatever the underlying
send would have done. -/
theorem closed_channel_send_noop (s : UplinkState) (m1 m2 : String) (t1 t2 : Bool) :
    sendPoseTelemetry (onChannelClose s) m1 t1
      = { state := onChannelClose s, raised := false }
    ∧ sendControllerData (onChannelClose s) m2 t2
      = { state := onChannelClose s, raised := false } := by
  constructor <;>
    simp [sendPoseTelemetry, sendControllerData, onChannelClose, UplinkState.channelOpen]

/-- An upload exception never escapes `updateTextureFromVideo`. -/
theorem updateTexture_threw (flags : LogFlags) (isLeft : Bool) (v : VideoState) :
    (updateTextureFromVideo flags isLeft v).threw = false := by
  by_cases hn : v.notReady <;> by_cases ht : v.uploadThrows <;> cases isLeft <;>
    simp [updateTextureFromVideo, texUploadAttempt, hn, ht]

/-- A not-ready source skips the upload. -/
theorem updateTexture_skip (flags : LogFlags) (isLeft : Bool) (v : VideoState)
    (h : v.notReady = true) :
    (updateTextureFromVideo flags isLeft v).uploaded = false := by
  cases isLeft <;> simp [updateTextureFromVideo, h]

/-- Per-view facts about the per-eye passes: every view is drawn, nothing
escapes, and a not-ready source means its view's upload was skipped. -/
theorem mem_renderViews (lv rv : VideoState) (views : List String) :
    ∀ (flags : LogFlags) (r : ViewRender), r ∈ (renderViews flags lv rv views).1 →
      r.drawn = true ∧ r.threw = false
      ∧ ((r.eye == "left") = true → lv.notReady = true → r.uploaded = false)
      ∧ ((r.eye == "left") = false → rv.notReady = true → r.uploaded = false) := by
  induction views with
  | nil =>
    intro flags r hr
    simp [renderViews] at hr
  | cons e es ih =>
    intro flags r hr
    simp only [renderViews, List.mem_cons] at hr
    rcases hr with rfl | hr
    · refine ⟨rfl, updateTexture_threw _ _ _, ?_, ?_⟩
      · intro hl hn
        dsimp only
        dsimp only at hl
        rw [hl]
        simp only [if_pos rfl]
        exact updateTexture_skip _ _ _ hn
      · intro hl hn
        dsimp only
        dsimp only at hl
        rw [hl]
        simp only [Bool.false_eq_true, if_neg, ite_false]
        exact updateTexture_skip _ _ _ hn
    · exact ih _ r hr

/-- One texture-update call spends at most the side's remaining log debt. -/
theorem update_sideDebt (side isLeft : Bool) (flags : LogFlags) (v : VideoState) :
    (if ((isLeft == side) && (updateTextureFromVideo flags isLeft v).loggedNow)
        then 1 else 0)
      + sideDebt side (updateTextureFromVideo flags isLeft v).flags
      ≤ sideDebt side flags := by
  obtain ⟨hl, hr⟩ := flags
  cases side <;> cases isLeft <;> cases hl <;> cases hr <;>
    by_cases hn : v.notReady <;> by_cases ht : v.uploadThrows <;>
      simp [updateTextureFromVideo, texUploadAttempt, sideDebt, sideLogged, hn, ht]

/-- Unfolding `countSideLogs` on a cons. -/
theorem countSideLogs_cons (side : Bool) (x : ViewRender) (xs : List ViewRender) :
    countSideLogs side (x :: xs)
      = (if ((x.eye == "left") == side) && x.loggedNow then 1 else 0)
        + countSideLogs side xs := by
  by_cases h : (((x.eye == "left") == side) && x.loggedNow) = true <;>
    simp [countSideLogs, List.filter_cons, h, Nat.add_comm]

/-- The count `countSideLogs` distributes over append. -/
theorem countSideLogs_append (side : Bool) (a b : List ViewRender) :
    countSideLogs side (a ++ b) = countSideLogs side a + countSideLogs side b := by
  simp [countSideLogs, List.filter_append]

/-- The per-eye passes of one frame spend at most the side's remaining log
debt. -/
theorem renderViews_sideLog_bound (side : Bool) (lv rv : VideoState)
    (views : List String) :
    ∀ flags, countSideLogs side (renderViews flags lv rv views).1
      + sideDebt side (renderViews flags lv rv views).2
      ≤ sideDebt side flags := by
  induction views with
  | nil =>
    intro flags
    simp [renderViews, countSideLogs]
  | cons e es ih =>
    intro flags
    have h1 := update_sideDebt side (e == "left") flags
      (if (e == "left") then lv else rv)
    have h2 := ih (updateTextureFromVideo flags (e == "left")
      (if (e == "left") then lv else rv)).flags
    simp only [renderViews, countSideLogs_cons]
    dsimp only
    omega

/-- A whole session spends at most the side's remaining log debt. -/
theorem runSession_sideLog_bound (side : Bool) (fs : List FrameVideoInput) :
    ∀ flags, countSideLogs side (runSession flags fs).1
      + sideDebt side (runSession flags fs).2 ≤ sideDebt side flags := by
  induction fs with
  | nil =>
    intro flags
    simp [runSession, countSideLogs]
  | cons f fs ih =>
    intro flags
    have h1 := renderViews_sideLog_bound side f.lv f.rv f.views flags
    have h2 := ih (renderViews flags f.lv f.rv f.views).2
    simp only [runSession, countSideLogs_append]
    omega

/-- C7: on a frame where a video source is not yet decodable, the compositor
skips that eye's texture upload but still issues the draw call for it (in
particular, when neither source is decodable both eyes are still drawn),
no exception escapes, and over a whole session the stall is logged at most
once per eye. -/
theorem compositor_stall_resilience (flags : LogFlags) (lv rv : VideoState)
    (views : List String) (session : List FrameVideoInput) :
    (∀ r ∈ (renderViews flags lv rv views).1,
        r.drawn = true ∧ r.threw = false
        ∧ ((r.eye == "left") = true → lv.notReady = true → r.uploaded = false)
        ∧ ((r.eye == "left") = false → rv.notReady = true → r.uploaded = false))
    ∧ countSideLogs true (runSession initialLogFlags session).1 ≤ 1
    ∧ countSideLogs false (runSession initialLogFlags session).1 ≤ 1 := by
  refine ⟨fun r hr => mem_renderViews lv rv views flags r hr, ?_, ?_⟩
  · have h := runSession_sideLog_bound true session initialLogFlags
    have hd : sideDebt true initialLogFlags = 1 := rfl
    omega
  · have h := runSession_sideLog_bound false session initialLogFlags
    have hd : sideDebt false initialLogFlags = 1 := rfl
    omega

/-- Witness for C7 at a concrete input: two stalled frames with both videos
not ready still bound the left-eye stall log by one. -/
theorem compositor_stall_resilience_witness :
    countSideLogs true (runSession initialLogFlags
      [⟨⟨0, 0, 0, false⟩, ⟨0, 0, 0, false⟩, ["left", "right"]⟩,
       ⟨⟨0, 0, 0, false⟩, ⟨0, 0, 0, false⟩, ["left", "right"]⟩]).1 ≤ 1 :=
  (compositor_stall_resilience initialLogFlags ⟨0, 0, 0, false⟩ ⟨0, 0, 0, false⟩ []
    [⟨⟨0, 0, 0, false⟩, ⟨0, 0, 0, false⟩, ["left", "right"]⟩,
     ⟨⟨0, 0, 0, false⟩, ⟨0, 0, 0, false⟩, ["left", "right"]⟩]).2.1

/-- The update `applyBtn` touches only `buttons`. -/
theorem applyBtn_type (c : Bool) (k : String) (m : ControllerMessage) :
    (applyBtn c k m).type = m.type := by
  unfold applyBtn
  split <;> rfl

/-- The update `applyBtn` keeps the timestamp. -/
theorem applyBtn_timestamp (c : Bool) (k : String) (m : ControllerMessage) :
    (applyBtn c k m).timestamp = m.timestamp := by
  unfold applyBtn
  split <;> rfl

/-- The update `applyBtn` keeps the left joystick. -/
theorem applyBtn_leftJoy (c : Bool) (k : String) (m : ControllerMessage) :
    (applyBtn c k m).leftJoystick = m.leftJoystick := by
  unfold applyBtn
  split <;> rfl

/-- The update `applyBtn` keeps the right joystick. -/
theorem applyBtn_rightJoy (c : Bool) (k : String) (m : ControllerMessage) :
    (applyBtn c k m).rightJoystick = m.rightJoystick := by
  unfold applyBtn
  split <;> rfl

/-- The update `applyStick` touches only the joysticks. -/
theorem applyStick_buttons (hand : String) (g : Gamepad) (m : ControllerMessage) :
    (applyStick hand g m).buttons = m.buttons := by
  unfold applyStick
  split_ifs <;> rfl

/-- The update `applyStick` keeps the type. -/
theorem applyStick_type (hand : String) (g : Gamepad) (m : ControllerMessage) :
    (applyStick hand g m).type = m.type := by
  unfold applyStick
  split_ifs <;> rfl

/-- The update `applyStick` keeps the timestamp. -/
theorem applyStick_timestamp (hand : String) (g : Gamepad) (m : ControllerMessage) :
    (applyStick hand g m).timestamp = m.timestamp := by
  unfold applyStick
  split_ifs <;> rfl

/-- One loop iteration keeps the type. -/
theorem processInputSource_type (m : ControllerMessage) (s : InputSource) :
    (processInputSource m s).type = m.type := by
  unfold processInputSource
  cases s.gamepad with
  | none => rfl
  | some g => simp [applyBtn_type, applyStick_type]

/-- One loop iteration keeps the timestamp. -/
theorem processInputSource_timestamp (m : ControllerMessage) (s : InputSource) :
    (processInputSource m s).timestamp = m.timestamp := by
  unfold processInputSource
  cases s.gamepad with
  | none => rfl
  | some g => simp [applyBtn_timestamp, applyStick_timestamp]

/-- A source without a usable left stick leaves the left joystick alone. -/
theorem processInputSource_leftJoy_of_no (m : ControllerMessage) (s : InputSource)
    (h : hasStick "left" s = false) :
    (processInputSource m s).leftJoystick = m.leftJoystick := by
  unfold processInputSource
  cases hg : s.gamepad with
  | none => rfl
  | some g =>
    simp only [applyBtn_leftJoy]
    unfold applyStick
    by_cases h4 : 4 ≤ g.axes.length
    · by_cases hl : s.handedness = "left"
      · exfalso
        simp [hasStick, hg, hl, h4] at h
      · by_cases hr : s.handedness = "right" <;> simp [h4, hl, hr]
    · simp [h4]

/-- A source without a usable right stick leaves the right joystick alone. -/
theorem processInputSource_rightJoy_of_no (m : ControllerMessage) (s : InputSource)
    (h : hasStick "right" s = false) :
    (processInputSource m s).rightJoystick = m.rightJoystick := by
  unfold processInputSource
  cases hg : s.gamepad with
  | none => rfl
  | some g =>
    simp only [applyBtn_rightJoy]
    unfold applyStick
    by_cases h4 : 4 ≤ g.axes.length
    · by_cases hr : s.handedness = "right"
      · exfalso
        simp [hasStick, hg, hr, h4] at h
      · by_cases hl : s.handedness = "left" <;> simp [h4, hl, hr]
    · simp [h4]

/-- A left-handed source with at least 4 axes writes its stick into the
left joystick slot. -/
theorem processInputSource_leftJoy_of_stick (m : ControllerMessage) (s : InputSource)
    (g : Gamepad) (hg : s.gamepad = some g) (hh : s.handedness = "left")
    (h4 : 4 ≤ g.axes.length) :
    (processInputSource m s).leftJoystick = stickOf g := by
  unfold processInputSource
  rw [hg]
  simp only [applyBtn_leftJoy]
  unfold applyStick
  simp [hh, h4]

/-- A right-handed source with at least 4 axes writes its stick into the
right joystick slot. -/
theorem processInputSource_rightJoy_of_stick (m : ControllerMessage) (s : InputSource)
    (g : Gamepad) (hg : s.gamepad = some g) (hh : s.handedness = "right")
    (h4 : 4 ≤ g.axes.length) :
    (processInputSource m s).rightJoystick = stickOf g := by
  unfold processInputSource
  rw [hg]
  simp only [applyBtn_rightJoy]
  unfold applyStick
  simp [hh, h4]

/-- Folding over sources without a usable left stick leaves the left
joystick alone. -/
theorem foldl_leftJoy_of_no (srcs : List InputSource)
    (h : ∀ s ∈ srcs, hasStick "left" s = false) :
    ∀ m : ControllerMessage,
      (List.foldl processInputSource m srcs).leftJoystick = m.leftJoystick := by
  induction srcs with
  | nil => intro m; rfl
  | cons s ss ih =>
    intro m
    rw [List.foldl_cons, ih (fun b hb => h b (List.mem_cons_of_mem s hb)),
      processInputSource_leftJoy_of_no m s (h s (List.mem_cons_self s ss))]

/-- Folding over sources without a usable right stick leaves the right
joystick alone. -/
theorem foldl_rightJoy_of_no (srcs : List InputSource)
    (h : ∀ s ∈ srcs, hasStick "right" s = false) :
    ∀ m : ControllerMessage,
      (List.foldl processInputSource m srcs).rightJoystick = m.rightJoystick := by
  induction srcs with
  | nil => intro m; rfl
  | cons s ss ih =>
    intro m
    rw [List.foldl_cons, ih (fun b hb => h b (List.mem_cons_of_mem s hb)),
      processInputSource_rightJoy_of_no m s (h s (List.mem_cons_self s ss))]

/-- Overwriting a value in place does not change the key list. -/
theorem keys_map_overwrite (bs : List (String × Bool)) (k : String) (v : Bool) :
    (bs.map (fun p => if p.1 == k then (p.1, v) else p)).map Prod.fst
      = bs.map Prod.fst := by
  induction bs with
  | nil => rfl
  | cons p ps ih =>
    simp only [List.map_cons, ih]
    congr 1
    split <;> rfl

/-- Key membership after `buttons[k] = v`. -/
theorem mem_keys_setBtn (bs : List (String × Bool)) (k a : String) (v : Bool) :
    a ∈ (setBtn bs k v).map Prod.fst ↔ a ∈ bs.map Prod.fst ∨ a = k := by
  unfold setBtn
  by_cases h : bs.any (fun p => p.1 == k) = true
  · rw [if_pos h, keys_map_overwrite]
    constructor
    · exact Or.inl
    · rintro (h1 | rfl)
      · exact h1
      · rcases List.any_eq_true.mp h with ⟨p, hp, hpk⟩
        have hk : p.1 = a := by simpa using hpk
        exact hk ▸ List.mem_map.mpr ⟨p, hp, rfl⟩
  · rw [if_neg h]
    simp

/-- Key membership after one conditional button assignment. -/
theorem mem_keys_applyBtn (c : Bool) (k a : String) (m : ControllerMessage) :
    a ∈ (applyBtn c k m).buttons.map Prod.fst
      ↔ a ∈ m.buttons.map Prod.fst ∨ (c = true ∧ a = k) := by
  unfold applyBtn
  cases c
  · simp
  · rw [if_pos rfl]
    dsimp only
    rw [mem_keys_setBtn]
    simp

/-- Key membership after one loop iteration: exactly the old keys plus the
keys this source contributes. -/
theorem mem_keys_process (m : ControllerMessage) (s : InputSource) (a : String) :
    a ∈ (processInputSource m s).buttons.map Prod.fst
      ↔ a ∈ m.buttons.map Prod.fst ∨ contributesBtn s a := by
  obtain ⟨gp, hand⟩ := s
  cases gp with
  | none => simp [processInputSource, contributesBtn]
  | some g =>
    simp only [processInputSource, mem_keys_applyBtn, applyStick_buttons,
      contributesBtn, Option.some.injEq]
    constructor
    · rintro ((((((h | h) | h) | h) | h) | h) | h)
      · exact Or.inl h
      · exact Or.inr ⟨g, rfl, Or.inl ⟨h.1, h.2⟩⟩
      · exact Or.inr ⟨g, rfl, Or.inr (Or.inl ⟨h.1, h.2⟩)⟩
      · exact Or.inr ⟨g, rfl, Or.inr (Or.inr (Or.inl ⟨h.1, h.2⟩))⟩
      · exact Or.inr ⟨g, rfl, Or.inr (Or.inr (Or.inr (Or.inl ⟨h.1, h.2⟩)))⟩
      · rcases h with ⟨hc, ha⟩
        have hc' : hand = "right" ∧ g.btnPressed 1 = true := by simpa using hc
        exact Or.inr ⟨g, rfl, Or.inr (Or.inr (Or.inr (Or.inr (Or.inl
          ⟨hc'.1, hc'.2, ha⟩))))⟩
      · rcases h with ⟨hc, ha⟩
        have hc' : hand = "left" ∧ g.btnPressed 1 = true := by simpa using hc
        exact Or.inr ⟨g, rfl, Or.inr (Or.inr (Or.inr (Or.inr (Or.inr
          ⟨hc'.1, hc'.2, ha⟩))))⟩
    · rintro (h | ⟨g', hg', h⟩)
      · exact Or.inl (Or.inl (Or.inl (Or.inl (Or.inl (Or.inl h)))))
      · cases hg'
        rcases h with ⟨hb, ha⟩ | ⟨hb, ha⟩ | ⟨hb, ha⟩ | ⟨hb, ha⟩ | ⟨hh, hb, ha⟩ | ⟨hh, hb, ha⟩
        · exact Or.inl (Or.inl (Or.inl (Or.inl (Or.inl (Or.inr ⟨hb, ha⟩)))))
        · exact Or.inl (Or.inl (Or.inl (Or.inl (Or.inr ⟨hb, ha⟩))))
        · exact Or.inl (Or.inl (Or.inl (Or.inr ⟨hb, ha⟩)))
        · exact Or.inl (Or.inl (Or.inr ⟨hb, ha⟩))
        · exact Or.inl (Or.inr ⟨by simp [hh, hb], ha⟩)
        · exact Or.inr ⟨by simp [hh, hb], ha⟩

/-- Key membership after folding a whole source list. -/
theorem mem_keys_foldl (srcs : List InputSource) (a : String) :
    ∀ m : ControllerMessage,
      a ∈ (List.foldl processInputSource m srcs).buttons.map Prod.fst
        ↔ a ∈ m.buttons.map Prod.fst ∨ ∃ s ∈ srcs, contributesBtn s a := by
  induction srcs with
  | nil => intro m; simp
  | cons s ss ih =>
    intro m
    rw [List.foldl_cons, ih, mem_keys_process]
    simp only [List.mem_cons, exists_eq_or_imp]
    tauto

/-- Key membership in the assembled controller message. -/
theorem mem_keys_controllerMessage (t : ℕ) (srcs : List InputSource) (a : String) :
    a ∈ (controllerMessage t srcs).buttons.map Prod.fst
      ↔ ∃ s ∈ srcs, contributesBtn s a := by
  unfold controllerMessage
  rw [mem_keys_foldl]
  simp

/-- Assigning `true` with `setBtn` keeps every stored value `true`. -/
theorem setBtn_values (bs : List (String × Bool)) (k : String)
    (h : ∀ p ∈ bs, p.2 = true) :
    ∀ p ∈ setBtn bs k true, p.2 = true := by
  unfold setBtn
  split
  · intro p hp
    rcases List.mem_map.mp hp with ⟨q, hq, rfl⟩
    split
    · rfl
    · exact h q hq
  · intro p hp
    rcases List.mem_append.mp hp with h1 | h1
    · exact h p h1
    · rcases List.mem_singleton.mp h1 with rfl
      rfl

/-- The update `applyBtn` keeps every stored value `true`. -/
theorem applyBtn_values (c : Bool) (k : String) (m : ControllerMessage)
    (h : ∀ p ∈ m.buttons, p.2 = true) :
    ∀ p ∈ (applyBtn c k m).buttons, p.2 = true := by
  unfold applyBtn
  cases c
  · simpa using h
  · simpa using setBtn_values m.buttons k h

/-- One loop iteration keeps every stored value `true`. -/
theorem processInputSource_values (m : ControllerMessage) (s : InputSource)
    (h : ∀ p ∈ m.buttons, p.2 = true) :
    ∀ p ∈ (processInputSource m s).buttons, p.2 = true := by
  unfold processInputSource
  cases s.gamepad with
  | none => exact h
  | some g =>
    apply applyBtn_values
    apply applyBtn_values
    apply applyBtn_values
    apply applyBtn_values
    apply applyBtn_values
    apply applyBtn_values
    rw [applyStick_buttons]
    exact h

/-- Folding a whole source list keeps every stored value `true`. -/
theorem foldl_values (srcs : List InputSource) :
    ∀ m : ControllerMessage, (∀ p ∈ m.buttons, p.2 = true) →
      ∀ p ∈ (List.foldl processInputSource m srcs).buttons, p.2 = true := by
  induction srcs with
  | nil => intro m h; exact h
  | cons s ss ih =>
    intro m h
    rw [List.foldl_cons]
    exact ih _ (processInputSource_values m s h)

/-- Folding keeps the message type. -/
theorem foldl_type (srcs : List InputSource) :
    ∀ m : ControllerMessage, (List.foldl processInputSource m srcs).type = m.type := by
  induction srcs with
  | nil => intro m; rfl
  | cons s ss ih =>
    intro m
    rw [List.foldl_cons, ih, processInputSource_type]

/-- Folding keeps the timestamp. -/
theorem foldl_timestamp (srcs : List InputSource) :
    ∀ m : ControllerMessage,
      (List.foldl processInputSource m srcs).timestamp = m.timestamp := by
  induction srcs with
  | nil => intro m; rfl
  | cons s ss ih =>
    intro m
    rw [List.foldl_cons, ih, processInputSource_timestamp]

/-- A string-append equation forces a list-level suffix. -/
theorem append_suffix_data (a b c : String) (h : a ++ b = c) : b.data <:+ c.data := by
  subst h
  exact ⟨a.data, by rw [String.data_append]⟩

/-- Right cancellation for string append. -/
theorem append_right_cancel_str (a b c : String) (h : a ++ c = b ++ c) : a = b := by
  apply String.ext
  have h2 := congrArg String.data h
  rw [String.data_append, String.data_append] at h2
  exact List.append_cancel_right h2

/-- A source contributes the key "left_grip" exactly when it contributes
the key "horn": both require a left hand with grip (button 1) pressed. -/
theorem contributes_left_grip_iff (s : InputSource) :
    contributesBtn s "left_grip" ↔ contributesBtn s "horn" := by
  unfold contributesBtn
  constructor
  · rintro ⟨g, hg, h⟩
    refine ⟨g, hg, ?_⟩
    rcases h with ⟨hb, hk⟩ | ⟨hb, hk⟩ | ⟨hb, hk⟩ | ⟨hb, hk⟩ | ⟨hh, hb, hk⟩ | ⟨hh, hb, hk⟩
    · exact absurd (append_suffix_data _ _ _ hk.symm) (by decide)
    · have hh : s.handedness = "left" := by
        apply append_right_cancel_str s.handedness "left" "_grip"
        rw [← hk]
        decide
      exact Or.inr (Or.inr (Or.inr (Or.inr (Or.inr ⟨hh, hb, rfl⟩))))
    · exact absurd hk (by decide)
    · exact absurd hk (by decide)
    · exact absurd hk (by decide)
    · exact absurd hk (by decide)
  · rintro ⟨g, hg, h⟩
    refine ⟨g, hg, ?_⟩
    rcases h with ⟨hb, hk⟩ | ⟨hb, hk⟩ | ⟨hb, hk⟩ | ⟨hb, hk⟩ | ⟨hh, hb, hk⟩ | ⟨hh, hb, hk⟩
    · exact absurd (append_suffix_data _ _ _ hk.symm) (by decide)
    · exact absurd (append_suffix_data _ _ _ hk.symm) (by decide)
    · exact absurd hk (by decide)
    · exact absurd hk (by decide)
    · exact absurd hk (by decide)
    · refine Or.inr (Or.inl ⟨hb, ?_⟩)
      rw [hh]
      decide

/-- A source contributes the key "right_grip" exactly when it contributes
the key "lights": both require a right hand with grip (button 1) pressed. -/
theorem contributes_right_grip_iff (s : InputSource) :
    contributesBtn s "right_grip" ↔ contributesBtn s "lights" := by
  unfold contributesBtn
  constructor
  · rintro ⟨g, hg, h⟩
    refine ⟨g, hg, ?_⟩
    rcases h with ⟨hb, hk⟩ | ⟨hb, hk⟩ | ⟨hb, hk⟩ | ⟨hb, hk⟩ | ⟨hh, hb, hk⟩ | ⟨hh, hb, hk⟩
    · exact absurd (append_suffix_data _ _ _ hk.symm) (by decide)
    · have hh : s.handedness = "right" := by
        apply append_right_cancel_str s.handedness "right" "_grip"
        rw [← hk]
        decide
      exact Or.inr (Or.inr (Or.inr (Or.inr (Or.inl ⟨hh, hb, rfl⟩))))
    · exact absurd hk (by decide)
    · exact absurd hk (by decide)
    · exact absurd hk (by decide)
    · exact absurd hk (by decide)
  · rintro ⟨g, hg, h⟩
    refine ⟨g, hg, ?_⟩
    rcases h with ⟨hb, hk⟩ | ⟨hb, hk⟩ | ⟨hb, hk⟩ | ⟨hb, hk⟩ | ⟨hh, hb, hk⟩ | ⟨hh, hb, hk⟩
    · exact absurd (append_suffix_data _ _ _ hk.symm) (by decide)
    · exact absurd (append_suffix_data _ _ _ hk.symm) (by decide)
    · exact absurd hk (by decide)
    · exact absurd hk (by decide)
    · refine Or.inr (Or.inl ⟨hb, ?_⟩)
      rw [hh]
      decide
    · exact absurd hk (by decide)

/-- C10: every controller message has type "controller" and the given
timestamp; each joystick defaults to `{x: 0, y: 0}` when no source of that
hand carries a gamepad with at least 4 axes, and otherwise — for the last
such source — equals `{x: axes[2], y: -axes[3]}`; every key stored in
`buttons` carries the value `true` (a released button never appears as an
explicit `false`); a key is present exactly when some source presses the
corresponding button (`contributesBtn`), so no key appears without its
button pressed; "left_grip" is present iff "horn" is, and "right_grip" iff
"lights"; and a pressed grip (button index 1) actually sets both the
hand-specific key and its alias. -/
theorem controllerMessage_shape (t : ℕ) (srcs : List InputSource) :
    ((controllerMessage t srcs).type = "controller"
      ∧ (controllerMessage t srcs).timestamp = t)
    ∧ ((∀ s ∈ srcs, hasStick "left" s = false) →
        (controllerMessage t srcs).leftJoystick = ⟨0, 0⟩)
    ∧ ((∀ s ∈ srcs, hasStick "right" s = false) →
        (controllerMessage t srcs).rightJoystick = ⟨0, 0⟩)
    ∧ (∀ pre s post g, srcs = pre ++ s :: post → s.gamepad = some g →
        4 ≤ g.axes.length →
        (s.handedness = "left" → (∀ b ∈ post, hasStick "left" b = false) →
          (controllerMessage t srcs).leftJoystick = stickOf g)
        ∧ (s.handedness = "right" → (∀ b ∈ post, hasStick "right" b = false) →
          (controllerMessage t srcs).rightJoystick = stickOf g))
    ∧ (∀ p ∈ (controllerMessage t srcs).buttons, p.2 = true)
    ∧ ("left_grip" ∈ (controllerMessage t srcs).buttons.map Prod.fst
        ↔ "horn" ∈ (controllerMessage t srcs).buttons.map Prod.fst)
    ∧ ("right_grip" ∈ (controllerMessage t srcs).buttons.map Prod.fst
        ↔ "lights" ∈ (controllerMessage t srcs).buttons.map Prod.fst)
    ∧ (∀ a, a ∈ (controllerMessage t srcs).buttons.map Prod.fst
        ↔ ∃ s ∈ srcs, contributesBtn s a)
    ∧ (∀ s ∈ srcs, ∀ g, s.gamepad = some g → g.btnPressed 1 = true →
        (s.handedness = "left" →
          "left_grip" ∈ (controllerMessage t srcs).buttons.map Prod.fst
            ∧ "horn" ∈ (controllerMessage t srcs).buttons.map Prod.fst)
        ∧ (s.handedness = "right" →
          "right_grip" ∈ (controllerMessage t srcs).buttons.map Prod.fst
            ∧ "lights" ∈ (controllerMessage t srcs).buttons.map Prod.fst)) := by
  refine ⟨⟨?_, ?_⟩, ?_, ?_, ?_, ?_, ?_, ?_, ?_, ?_⟩
  · rw [controllerMessage, foldl_type]
  · rw [controllerMessage, foldl_timestamp]
  · intro h
    rw [controllerMessage, foldl_leftJoy_of_no srcs h]
  · intro h
    rw [controllerMessage, foldl_rightJoy_of_no srcs h]
  · intro pre s post g hsplit hg h4
    subst hsplit
    constructor
    · intro hh hpost
      rw [controllerMessage, List.foldl_append, List.foldl_cons,
        foldl_leftJoy_of_no post hpost]
      exact processInputSource_leftJoy_of_stick _ _ _ hg hh h4
    · intro hh hpost
      rw [controllerMessage, List.foldl_append, List.foldl_cons,
        foldl_rightJoy_of_no post hpost]
      exact processInputSource_rightJoy_of_stick _ _ _ hg hh h4
  · exact foldl_values srcs _ (by simp)
  · rw [mem_keys_controllerMessage, mem_keys_controllerMessage]
    exact exists_congr fun s =>
      and_congr_right fun _ => contributes_left_grip_iff s
  · rw [mem_keys_controllerMessage, mem_keys_controllerMessage]
    exact exists_congr fun s =>
      and_congr_right fun _ => contributes_right_grip_iff s
  · exact fun a => mem_keys_controllerMessage t srcs a
  · intro s hs g hg hb
    constructor
    · intro hh
      constructor
      · rw [mem_keys_controllerMessage]
        refine ⟨s, hs, g, hg, Or.inr (Or.inl ⟨hb, ?_⟩)⟩
        rw [hh]
        decide
      · rw [mem_keys_controllerMessage]
        exact ⟨s, hs, g, hg,
          Or.inr (Or.inr (Or.inr (Or.inr (Or.inr ⟨hh, hb, rfl⟩))))⟩
    · intro hh
      constructor
      · rw [mem_keys_controllerMessage]
        refine ⟨s, hs, g, hg, Or.inr (Or.inl ⟨hb, ?_⟩)⟩
        rw [hh]
        decide
      · rw [mem_keys_controllerMessage]
        exact ⟨s, hs, g, hg,
          Or.inr (Or.inr (Or.inr (Or.inr (Or.inl ⟨hh, hb, rfl⟩))))⟩

/-- Witness for C10 at a concrete input: one left-handed source with the
grip button (index 1) pressed puts both "left_grip" and "horn" into the
message's buttons. -/
theorem controllerMessage_shape_witness :
    "left_grip" ∈ (controllerMessage 7
        [⟨some ⟨[], [⟨false⟩, ⟨true⟩]⟩, "left"⟩]).buttons.map Prod.fst
    ∧ "horn" ∈ (controllerMessage 7
        [⟨some ⟨[], [⟨false⟩, ⟨true⟩]⟩, "left"⟩]).buttons.map Prod.fst :=
  ((controllerMessage_shape 7
      [⟨some ⟨[], [⟨false⟩, ⟨true⟩]⟩, "left"⟩]).2.2.2.2.2.2.2.2
    ⟨some ⟨[], [⟨false⟩, ⟨true⟩]⟩, "left"⟩ (by simp)
    ⟨[], [⟨false⟩, ⟨true⟩]⟩ rfl rfl).1 rfl

end OakDVR
